import Mathlib

/-!
Shallow embedding of the risk-scoring and policy-enforcement core of the
`cgcp` governance control plane (Python sources under `backend/`), together
with proofs of the specification's testable properties.

Conventions of the embedding:
* Python `float` scores and thresholds are modelled as exact rationals `ℚ`;
  every arithmetic operation the code performs on them (comparison,
  addition, multiplication by the literal `0.8`, clamping) is exact.
* Python `dict`s are modelled as association lists in insertion order
  (`alookup` finds the first matching key, `adicSet` overwrites in place or
  appends a missing key at the end, `aerase` deletes the first matching
  key — a real `dict` has unique keys, so first-match agrees with it).
* UUIDs are modelled as natural numbers; wall-clock timestamps are omitted
  (no claim mentions them).
* Fallible HTTP handlers return `Except`; the handler state is passed and
  returned explicitly.
-/

namespace Cgcp

/-! ### Association-list model of Python dicts -/

/-- First-match lookup in an association list (Python `d[k]` / `k in d`). -/
def alookup {α β : Type} [DecidableEq α] : List (α × β) → α → Option β
  | [], _ => none
  | (k', v) :: rest, k => if k' = k then some v else alookup rest k

/-- Python `d[k] = v`: overwrite the first entry with key `k` in place, or
append a new entry at the end (Python dicts preserve insertion order). -/
def adicSet {α β : Type} [DecidableEq α] : List (α × β) → α → β → List (α × β)
  | [], k, v => [(k, v)]
  | (k', v') :: rest, k, v =>
      if k' = k then (k, v) :: rest else (k', v') :: adicSet rest k v

/-- Python `del d[k]`: remove the first entry with key `k`. -/
def aerase {α β : Type} [DecidableEq α] : List (α × β) → α → List (α × β)
  | [], _ => []
  | (k', v) :: rest, k => if k' = k then rest else (k', v) :: aerase rest k

/-! ### Data model (`backend/models.py`) -/

/-- `TierEnum`: access tier levels. -/
inductive Tier
  | general
  | enterprise
  | research_sandbox
deriving DecidableEq, Repr

/-- `TierEnum.value`: the string value of a tier. -/
def Tier.value : Tier → String
  | .general => "general"
  | .enterprise => "enterprise"
  | .research_sandbox => "research_sandbox"

/-- `ActionEnum`: policy enforcement actions. -/
inductive ActionEnum
  | allow
  | block
  | redact
  | escalate
deriving DecidableEq, Repr

/-- `ActionEnum.value`: the string value of an action. -/
def ActionEnum.value : ActionEnum → String
  | .allow => "allow"
  | .block => "block"
  | .redact => "redact"
  | .escalate => "escalate"

/-- `ClaudeEvent`: one interaction record.  The `timestamp` field is
omitted (wall-clock time, unused by every modelled code path). -/
structure ClaudeEvent where
  event_id : Nat
  user_id : String
  org_id : String
  surface : String
  tier : Tier
  prompt : String
  completion : String
  risk_scores : List (String × ℚ)
  tags : List String
  model_version : String
deriving DecidableEq, Repr

/-- `PolicyAction`: the enforcement decision for one record. -/
structure PolicyAction where
  event_id : Nat
  action : ActionEnum
  asl_level : Option Nat
  policy_version : String
  reason : String
  asl_triggered : Bool
deriving DecidableEq, Repr

/-! ### Confidence aggregator (`backend/taggers/base_tagger.py`,
`RiskTagger._calculate_confidence`) -/

/-- Stable insertion of a `(label, weight)` pair into a list sorted by
weight descending: the new element goes before the first strictly lighter
element, i.e. after all existing elements of equal weight, exactly as
Python's stable `list.sort(key=weight, reverse=True)` places it. -/
def insertByWeightDesc (x : String × ℚ) : List (String × ℚ) → List (String × ℚ)
  | [] => [x]
  | y :: ys => if x.2 < y.2 then y :: insertByWeightDesc x ys else x :: y :: ys

/-- Stable sort by weight descending (`positive_matches.sort(key=..., reverse=True)`). -/
def sortByWeightDesc : List (String × ℚ) → List (String × ℚ)
  | [] => []
  | x :: xs => insertByWeightDesc x (sortByWeightDesc xs)

/-- `RiskTagger._calculate_confidence`: weighted aggregation with geometric
decay `0.8` over positive matches sorted by weight descending, flat
subtraction of the absolute values of negative matches, clamp to `[0,1]`. -/
def calcConfidence (ms : List (String × ℚ)) : ℚ :=
  if ms = [] then 0
  else
    let positive_matches := ms.filter fun m => 0 < m.2
    let negative_matches := ms.filter fun m => m.2 < 0
    let sorted := sortByWeightDesc positive_matches
    let base_confidence :=
      (sorted.foldl (fun acc m => (acc.1 + m.2 * acc.2, acc.2 * (4/5))) ((0 : ℚ), (1 : ℚ))).1
    let negative_adjustment := negative_matches.foldl (fun acc m => acc + |m.2|) (0 : ℚ)
    max 0 (min (base_confidence - negative_adjustment) 1)

/-! ### Policy configuration (`backend/rules_engine.py`) -/

/-- One entry of the `asl_triggers` configuration section. -/
structure AslTrigger where
  category : String
  confidence : ℚ
  description : String
deriving DecidableEq, Repr

/-- The policy configuration the rules engine reads: `risk_thresholds`
(category → tier → threshold) and `asl_triggers` (ASL name → trigger list).
The `actions` section of the YAML is presentation data never read by any
modelled code path and is omitted. -/
structure PolicyConfig where
  risk_thresholds : List (String × List (String × ℚ))
  asl_triggers : List (String × List AslTrigger)
deriving DecidableEq, Repr

/-- `RulesEngine._use_default_config`: the hardcoded default configuration. -/
def defaultPolicyConfig : PolicyConfig where
  risk_thresholds :=
    [ ("cbrn", [("general", 15/100), ("enterprise", 18/100), ("research_sandbox", 25/100)]),
      ("self_harm", [("general", 30/100), ("enterprise", 50/100), ("research_sandbox", 80/100)]),
      ("jailbreak", [("general", 30/100), ("enterprise", 45/100), ("research_sandbox", 60/100)]),
      ("exploitation", [("general", 30/100), ("enterprise", 45/100), ("research_sandbox", 60/100)]) ]
  asl_triggers :=
    [ ("asl_3",
        [ ⟨"cbrn", 20/100, "Biological/chemical threat enhancement"⟩,
          ⟨"autonomous_replication", 50/100, "ARA capability"⟩,
          ⟨"cyber_offense", 50/100, "Autonomous cyber attacks"⟩,
          ⟨"deception", 50/100, "Scaled deception capability"⟩ ]) ]

/-! ### Rules engine (`backend/rules_engine.py`, `RulesEngine.apply_policies`) -/

/-- A `triggered_risks` entry: `{category, score, threshold}`. -/
structure TriggeredRisk where
  category : String
  score : ℚ
  threshold : ℚ
deriving DecidableEq, Repr

/-- Step 1 of `apply_policies`: for every category in the record's score
map (in insertion order), if the threshold table has a `category`/`tier`
cell and the score strictly exceeds it, record a triggered-risk entry. -/
def triggeredRisks (thresholds : List (String × List (String × ℚ))) (tier : String)
    (scores : List (String × ℚ)) : List TriggeredRisk :=
  scores.filterMap fun cs =>
    match alookup thresholds cs.1 with
    | none => none
    | some tierMap =>
      match alookup tierMap tier with
      | none => none
      | some t => if t < cs.2 then some ⟨cs.1, cs.2, t⟩ else none

/-- The running `(max_risk_score, critical_category)` fold of
`apply_policies`: starts at `(0.0, None)` and is updated exactly when a
triggered risk's score strictly exceeds the running maximum. -/
def criticalOf (ts : List TriggeredRisk) : ℚ × Option String :=
  ts.foldl (fun acc r => if acc.1 < r.score then (r.score, some r.category) else acc)
    ((0 : ℚ), (none : Option String))

/-- The fixed ASL check table hardcoded in `apply_policies`:
`[("cbrn", 0.20), ("exploitation", 0.50), ("jailbreak", 0.50)]`. -/
def aslChecks : List (String × ℚ) :=
  [("cbrn", 20/100), ("exploitation", 50/100), ("jailbreak", 50/100)]

/-- Whether some fixed ASL check fires: the category is present in the
score map and its score meets or exceeds the absolute threshold. -/
def fixedAslFired (scores : List (String × ℚ)) : Bool :=
  aslChecks.any fun ct =>
    match alookup scores ct.1 with
    | some s => decide (ct.2 ≤ s)
    | none => false

/-- Split a character list at every occurrence of `sep`
(model of Python `str.split`). -/
def splitChar (sep : Char) : List Char → List (List Char)
  | [] => [[]]
  | c :: cs =>
    let r := splitChar sep cs
    if c = sep then [] :: r
    else
      match r with
      | [] => [[c]]
      | g :: gs => (c :: g) :: gs

/-- Parse a decimal digit. -/
def charDigit (c : Char) : Option Nat :=
  if '0' ≤ c ∧ c ≤ '9' then some (c.toNat - '0'.toNat) else none

/-- Parse a nonempty string of decimal digits (model of Python `int(...)`
on the well-formed inputs the configuration contains). -/
def digitsToNat (cs : List Char) : Option Nat :=
  cs.foldl
    (fun acc c =>
      match acc, charDigit c with
      | some n, some d => some (n * 10 + d)
      | _, _ => none)
    (if cs = [] then none else some 0)

/-- `int(asl.split("_")[1])` of `apply_policies`: the numeric level of an
ASL trigger-group name such as `"asl_3"`. -/
def parseAslLevel (name : String) : Nat :=
  (digitsToNat ((splitChar '_' name.toList).getD 1 [])).getD 0

/-- Step 2 of `apply_policies`: the fixed ASL checks (first firing check
sets level 3 and stops), then every configured trigger group (a group with
a matching trigger overwrites the flag and level with that group's level). -/
def aslEval (cfg : PolicyConfig) (scores : List (String × ℚ)) : Bool × Option Nat :=
  let init : Bool × Option Nat :=
    if fixedAslFired scores then (true, some 3) else (false, none)
  cfg.asl_triggers.foldl
    (fun acc nt =>
      if nt.2.any (fun trig =>
          match alookup scores trig.category with
          | some s => decide (trig.confidence ≤ s)
          | none => false)
      then (true, some (parseAslLevel nt.1))
      else acc)
    init

/-- `RulesEngine._determine_action`: the ordered decision list. -/
def determineAction (triggered : List TriggeredRisk) (max_risk_score : ℚ)
    (critical_category : Option String) (asl_triggered : Bool) (tier : String) : ActionEnum :=
  if asl_triggered then
    if tier = "research_sandbox" then .allow else .escalate
  else if triggered = [] then .allow
  else if (critical_category = some "cbrn" ∨ critical_category = some "self_harm")
      ∧ (15/100 : ℚ) < max_risk_score then
    if tier = "general" then .block
    else if tier = "enterprise" then .escalate
    else .redact
  else if (50/100 : ℚ) < max_risk_score then
    if tier = "research_sandbox" then .redact else .block
  else if (30/100 : ℚ) < max_risk_score then .redact
  else .allow

/-! #### Reason string formatting -/

/-- Floor of a rational (via floor division of numerator by denominator). -/
def qfloor (q : ℚ) : ℤ := Int.fdiv q.num q.den

/-- Round `q` to the nearest hundredth, half to even (the rounding of
Python's `format(x, ".2f")`), returned as a number of hundredths. -/
def round2 (q : ℚ) : ℤ :=
  let x := q * 100
  let n := qfloor x
  let r := x - n
  if r < 1/2 then n
  else if 1/2 < r then n + 1
  else if n % 2 = 0 then n else n + 1

/-- Left-pad a two-digit fractional part. -/
def natPad2 (n : Nat) : String :=
  if n < 10 then "0" ++ toString n else toString n

/-- Python `f"{x:.2f}"`: fixed two-decimal rendering. -/
def fmt2 (q : ℚ) : String :=
  let m := round2 q
  let sign := if m < 0 then "-" else ""
  let a := m.natAbs
  sign ++ toString (a / 100) ++ "." ++ natPad2 (a % 100)

/-- Python string interpolation of an `Optional[str]` (`None` prints as `"None"`). -/
def fmtOptCat : Option String → String
  | some s => s
  | none => "None"

/-- One non-ASL reason fragment:
`f"{category} risk ({score:.2f}) exceeded {tier} threshold ({threshold:.2f})"`. -/
def fmtRisk (tier : String) (r : TriggeredRisk) : String :=
  r.category ++ " risk (" ++ fmt2 r.score ++ ") exceeded " ++ tier
    ++ " threshold (" ++ fmt2 r.threshold ++ ")"

/-- `RulesEngine._generate_reason`. -/
def generateReason (triggered : List TriggeredRisk) (asl_triggered : Bool)
    (critical_category : Option String) (tier : String) : String :=
  if asl_triggered then
    if critical_category = some "cbrn" then
      "ASL-3 biological/chemical threshold exceeded (cbrn ≥ 0.20)"
    else if critical_category = some "exploitation" then
      "ASL-3 cyber capability threshold exceeded (exploitation ≥ 0.50)"
    else if critical_category = some "jailbreak" then
      "ASL-3 deception capability threshold exceeded (jailbreak ≥ 0.50)"
    else
      "ASL-3 safety threshold triggered for " ++ fmtOptCat critical_category ++ " risk"
  else if triggered = [] then "No policy violations detected"
  else String.intercalate "; " ((triggered.take 3).map (fmtRisk tier))

/-- `RulesEngine.apply_policies`: the full decision pipeline producing the
`PolicyAction`.  The in-place mutations of `enforcement_stats` and of
`event.tags` (audit tag appends) are bookkeeping that never feeds back into
the returned `PolicyAction` and are not modelled. -/
def apply_policies (cfg : PolicyConfig) (event : ClaudeEvent) : PolicyAction :=
  let tier := event.tier.value
  let triggered := triggeredRisks cfg.risk_thresholds tier event.risk_scores
  let mc := criticalOf triggered
  let asl := aslEval cfg event.risk_scores
  { event_id := event.event_id
    action := determineAction triggered mc.1 mc.2 asl.1 tier
    asl_level := asl.2
    policy_version := "RSP-1.0"
    reason := generateReason triggered asl.1 mc.2 tier
    asl_triggered := asl.1 }

/-! ### Threshold update (`RulesEngine.update_policy`) -/

/-- The fixed per-category regulatory floors (`rsp_minimums`). -/
def rspMinimums : List (String × ℚ) :=
  [("cbrn", 10/100), ("self_harm", 20/100), ("jailbreak", 20/100), ("exploitation", 20/100)]

/-- The rules engine's mutable configuration state: the in-memory
`policy_config` and the configuration persisted to `policy_file`
(rewritten in full on every successful update). -/
structure EngineState where
  policy : PolicyConfig
  persisted : PolicyConfig
deriving DecidableEq, Repr

/-- The floor validation of `update_policy`:
`category in rsp_minimums and new_threshold < rsp_minimums[category]`. -/
def belowFloor (category : String) (new_threshold : ℚ) : Bool :=
  match alookup rspMinimums category with
  | some fl => decide (new_threshold < fl)
  | none => false

/-- `RulesEngine.update_policy`: reject below-floor values, reject missing
category/tier cells, otherwise overwrite the cell in memory and persist. -/
def update_policy (st : EngineState) (category tier : String) (new_threshold : ℚ) :
    Bool × EngineState :=
  if belowFloor category new_threshold then (false, st)
  else
    match alookup st.policy.risk_thresholds category with
    | none => (false, st)
    | some tierMap =>
      match alookup tierMap tier with
      | none => (false, st)
      | some _ =>
        let cfg' : PolicyConfig :=
          { st.policy with
            risk_thresholds :=
              adicSet st.policy.risk_thresholds category (adicSet tierMap tier new_threshold) }
        (true, { policy := cfg', persisted := cfg' })

/-! ### Application layer (`backend/app.py`) -/

/-- One `review_queue` entry: the event and its policy action
(`added_at` wall-clock timestamp omitted). -/
structure QueueEntry where
  event : ClaudeEvent
  policy_action : PolicyAction
deriving DecidableEq, Repr

/-- One row of the `events` table: the stored event plus the mutable
`action` column (initialised from the policy action, overwritten in place
by a review decision) and the `asl_triggered` column. -/
structure StoredEvent where
  event : ClaudeEvent
  action : String
  asl_triggered : Bool
deriving DecidableEq, Repr

/-- One row of the `policy_history` table. -/
structure HistoryEntry where
  category : String
  tier : String
  old_threshold : ℚ
  new_threshold : ℚ
  changed_by : String
deriving DecidableEq, Repr

/-- The mutable state the handlers in `app.py` share: the two database
tables the claims touch, the in-memory review queue (a dict keyed by event
id), the rules engine's configuration and the policy-history table. -/
structure AppState where
  events : List StoredEvent
  policy_actions : List PolicyAction
  review_queue : List (Nat × QueueEntry)
  engine : EngineState
  policy_history : List HistoryEntry
deriving DecidableEq, Repr

/-- The tagger iteration order of the `taggers` dict in `app.py`. -/
def taggerCategories : List String := ["cbrn", "self_harm", "jailbreak", "exploitation"]

/-- A detector result (`RiskScore` without the severity bucket, which
`ingest_events` never reads). -/
structure DetectResult where
  confidence : ℚ
  matched_patterns : List String

/-- The family of detectors, abstracted over the four regex taggers:
`category → prompt → completion → result`.  The dedup/metrics logic the
claims concern is independent of the detector bodies. -/
def Taggers : Type := String → String → String → DetectResult

/-- The tagger loop of `ingest_events`: set each category's score in the
record's score map and append up to two `"category:pattern"` tags. -/
def scoreEvent (det : Taggers) (e : ClaudeEvent) : ClaudeEvent :=
  taggerCategories.foldl
    (fun ev cat =>
      let r := det cat ev.prompt ev.completion
      { ev with
        risk_scores := adicSet ev.risk_scores cat r.confidence
        tags := ev.tags ++ (r.matched_patterns.take 2).map (fun p => cat ++ ":" ++ p) })
    e

/-- The per-batch summary `ingest_events` returns. -/
structure IngestResponse where
  processed : Nat
  allow : Nat
  block : Nat
  redact : Nat
  escalate : Nat
  asl_triggers : Nat
deriving DecidableEq, Repr

/-- One iteration of the `ingest_events` loop: score the event, apply
policies, then — only when no row with this `event_id` exists — insert the
event row and the policy-action row, enqueue escalations, and append to
the response lists.  An already-stored id falls through the `existing == 0`
guard: nothing is written and nothing is appended to the response lists.
(The `except` branch for database errors on fresh inserts is the
no-exception execution here: inserts succeed.) -/
def ingestStep (det : Taggers) (acc : AppState × List ClaudeEvent × List PolicyAction)
    (e : ClaudeEvent) : AppState × List ClaudeEvent × List PolicyAction :=
  let st := acc.1
  let scored := scoreEvent det e
  let pa := apply_policies st.engine.policy scored
  if st.events.any (fun se => se.event.event_id = e.event_id) then acc
  else
    ({ st with
        events := st.events ++ [⟨scored, pa.action.value, pa.asl_triggered⟩]
        policy_actions := st.policy_actions ++ [pa]
        review_queue :=
          if pa.action = .escalate then adicSet st.review_queue scored.event_id ⟨scored, pa⟩
          else st.review_queue },
     acc.2.1 ++ [scored], acc.2.2 ++ [pa])

/-- `POST /ingest` (`ingest_events`): process a batch and report counts
over the per-batch `processed_events` / `policy_actions` lists. -/
def ingest_events (det : Taggers) (st : AppState) (batch : List ClaudeEvent) :
    AppState × IngestResponse :=
  let r := batch.foldl (ingestStep det) (st, [], [])
  let pas := r.2.2
  (r.1,
   { processed := r.2.1.length
     allow := (pas.filter (fun pa => pa.action = .allow)).length
     block := (pas.filter (fun pa => pa.action = .block)).length
     redact := (pas.filter (fun pa => pa.action = .redact)).length
     escalate := (pas.filter (fun pa => pa.action = .escalate)).length
     asl_triggers := (pas.filter (fun pa => pa.asl_triggered)).length })

/-- The failure mode of `POST /review/{event_id}`: HTTP 404. -/
inductive ReviewError
  | notFound
deriving DecidableEq, Repr

/-- The success payload of `POST /review/{event_id}`.  Note that
`policy_updated` is assigned the request flag `update_policy`, exactly as
in the source. -/
structure ReviewResponse where
  event_id : Nat
  decision : String
  policy_updated : Bool
  remaining_in_queue : Nat
deriving DecidableEq, Repr

/-- `POST /review/{event_id}` (`review_event`): 404 when the id has no
pending queue entry; otherwise override the stored action, optionally run
the threshold update (whose rejection does not block anything), log the
change to `policy_history` on success (reading the "old" threshold back
from the already-updated table, as the source does), remove the queue
entry, and answer with the request's `update_policy` flag echoed as
`policy_updated`. -/
def review_event (st : AppState) (event_id : Nat) (decision : String)
    (updatePolicy : Bool) (new_threshold : Option ℚ) (category : Option String) :
    Except ReviewError ReviewResponse × AppState :=
  match alookup st.review_queue event_id with
  | none => (.error .notFound, st)
  | some item =>
    let st1 : AppState :=
      { st with
        events := st.events.map fun se =>
          if se.event.event_id = event_id then { se with action := decision } else se }
    let st2 : AppState :=
      if updatePolicy then
        match new_threshold, category with
        | some nt, some cat =>
          if cat = "" then st1
          else
            let res := update_policy st1.engine cat item.event.tier.value nt
            if res.1 then
              { st1 with
                engine := res.2
                policy_history := st1.policy_history ++
                  [⟨cat, item.event.tier.value,
                    ((alookup res.2.policy.risk_thresholds cat).bind
                      (fun tm => alookup tm item.event.tier.value)).getD 0,
                    nt, "safety_reviewer"⟩] }
            else { st1 with engine := res.2 }
        | _, _ => st1
      else st1
    let queue' := aerase st.review_queue event_id
    (.ok ⟨event_id, decision, updatePolicy, queue'.length⟩,
     { st2 with review_queue := queue' })

/-! ### Substring search (used to state that a reason string omits a category) -/

/-- `pat` is a prefix of `l`. -/
def prefixOfList : List Char → List Char → Bool
  | [], _ => true
  | _ :: _, [] => false
  | p :: ps, t :: ts => p = t && prefixOfList ps ts

/-- `pat` occurs as a contiguous substring of `l`. -/
def substrOfList (pat : List Char) : List Char → Bool
  | [] => prefixOfList pat []
  | t :: ts => prefixOfList pat (t :: ts) || substrOfList pat ts

/-! ### Helper lemmas about the dict model -/

theorem alookup_eq_none_of_not_mem_keys {α β : Type} [DecidableEq α]
    (l : List (α × β)) (k : α) (h : k ∉ l.map Prod.fst) : alookup l k = none := by
  induction l with
  | nil => rfl
  | cons hd tl ih =>
    obtain ⟨k', v⟩ := hd
    simp only [List.map_cons, List.mem_cons, not_or] at h
    have hk : ¬ k' = k := fun hk => h.1 hk.symm
    simp only [alookup, if_neg hk]
    exact ih h.2

theorem length_aerase_of_alookup {α β : Type} [DecidableEq α]
    (l : List (α × β)) (k : α) (v : β) (h : alookup l k = some v) :
    (aerase l k).length + 1 = l.length := by
  induction l with
  | nil => simp [alookup] at h
  | cons hd tl ih =>
    obtain ⟨k', v'⟩ := hd
    by_cases hk : k' = k
    · simp [aerase, hk]
    · simp only [alookup, if_neg hk] at h
      simp [aerase, hk, ih h]

theorem alookup_aerase_self {α β : Type} [DecidableEq α]
    (l : List (α × β)) (k : α) (h : (l.map Prod.fst).Nodup) :
    alookup (aerase l k) k = none := by
  induction l with
  | nil => rfl
  | cons hd tl ih =>
    obtain ⟨k', v'⟩ := hd
    simp only [List.map_cons, List.nodup_cons] at h
    by_cases hk : k' = k
    · subst hk
      simpa [aerase] using alookup_eq_none_of_not_mem_keys tl k' h.1
    · simp [aerase, hk, alookup, ih h.2]

/-! ### C4 / C5: confidence aggregation -/

/-- C4: for every finite list of (label, weight) match pairs, the shared
confidence aggregation `_calculate_confidence` returns a value in the
closed interval [0.0, 1.0]. -/
theorem calcConfidence_mem_unit (ms : List (String × ℚ)) :
    0 ≤ calcConfidence ms ∧ calcConfidence ms ≤ 1 := by
  unfold calcConfidence
  by_cases h : ms = []
  · simp [h]
  · simp only [if_neg h]
    exact ⟨le_max_left 0 _, max_le zero_le_one (min_le_right _ 1)⟩

/-- C5: for a match list of exactly two positive-weight matches with
weights `w1 ≥ w2 > 0` and no negative-weight matches,
`_calculate_confidence` returns `min(1.0, w1 + 0.8·w2)`. -/
theorem calcConfidence_two_pos (a b : String) (w1 w2 : ℚ)
    (h1 : w2 ≤ w1) (h2 : 0 < w2) :
    calcConfidence [(a, w1), (b, w2)] = min 1 (w1 + (4/5) * w2) := by
  have hw1 : 0 < w1 := lt_of_lt_of_le h2 h1
  have hns : ¬ w1 < w2 := not_lt.mpr h1
  have hn1 : ¬ w1 < 0 := not_lt.mpr hw1.le
  have hn2 : ¬ w2 < 0 := not_lt.mpr h2.le
  unfold calcConfidence
  rw [if_neg (by simp)]
  simp only [List.filter_cons, List.filter_nil, decide_eq_true_eq, hw1, h2, if_pos,
    hn1, hn2, if_neg, not_false_eq_true, sortByWeightDesc, insertByWeightDesc, hns,
    List.foldl_cons, List.foldl_nil]
  have hx : (0 : ℚ) < w1 + (4/5) * w2 := by positivity
  have hval : (0 : ℚ) + w1 * 1 + w2 * (1 * (4/5)) - 0 = w1 + (4/5) * w2 := by ring
  rw [hval, max_eq_right (le_min hx.le zero_le_one), min_comm]

/-- C5 witness: the two-positive-match decay formula evaluated at the
concrete weights `w1 = 1/2`, `w2 = 1/4`. -/
theorem calcConfidence_two_pos_witness :
    ((1/4 : ℚ) ≤ 1/2 ∧ (0 : ℚ) < 1/4)
  ∧ calcConfidence [("a", 1/2), ("b", 1/4)] = min 1 (1/2 + (4/5) * (1/4)) :=
  ⟨⟨by with_unfolding_all decide, by with_unfolding_all decide⟩,
   calcConfidence_two_pos "a" "b" (1/2) (1/4) (by with_unfolding_all decide)
     (by with_unfolding_all decide)⟩

/-! ### C1: tier differential at cbrn score 0.18 -/

/-- The record of the tier-differential scenario: risk-score map
`{cbrn: 0.18}`, instantiated at each tier. -/
def c1Event (t : Tier) : ClaudeEvent :=
  ⟨101, "u", "o", "api", t, "p", "c", [("cbrn", 18/100)], [], "m"⟩

/-- C1: what the code actually returns for the identical record with
cbrn score 0.18 under the default thresholds: general → block,
enterprise → allow (not escalate: `0.18 > 0.18` is false, so the
enterprise threshold does not trigger and no rule fires), research_sandbox
→ allow.  The repository's own test (`verify_system.py`,
`test_policy_enforcement`) and demo (`demo/production_demo.py`,
`demonstrate_tier_differential`) expect enterprise → escalate for this
exact input, which the code contradicts. -/
theorem tier_differential_at_018 :
    (apply_policies defaultPolicyConfig (c1Event .general)).action = .block
  ∧ (apply_policies defaultPolicyConfig (c1Event .enterprise)).action = .allow
  ∧ (apply_policies defaultPolicyConfig (c1Event .research_sandbox)).action = .allow := by
  with_unfolding_all decide

/-! ### C6 / C10: threshold update rejection -/

/-- C6: for every category with a regulatory floor, `update_policy` with a
new threshold strictly below the floor returns false and leaves both the
in-memory threshold table and the persisted configuration unchanged. -/
theorem update_below_floor_rejected (st : EngineState) (cat tier : String) (v fl : ℚ)
    (hfl : alookup rspMinimums cat = some fl) (hv : v < fl) :
    update_policy st cat tier v = (false, st) := by
  have hb : belowFloor cat v = true := by
    unfold belowFloor
    rw [hfl]
    exact decide_eq_true hv
  unfold update_policy
  rw [hb]
  rfl

/-- C6 witness: updating the cbrn threshold to 0.05 (below the 0.10 floor)
is rejected and mutates nothing. -/
theorem update_below_floor_rejected_witness :
    (alookup rspMinimums "cbrn" = some (10/100) ∧ (5/100 : ℚ) < 10/100)
  ∧ update_policy ⟨defaultPolicyConfig, defaultPolicyConfig⟩ "cbrn" "enterprise" (5/100) =
      (false, ⟨defaultPolicyConfig, defaultPolicyConfig⟩) :=
  ⟨⟨rfl, by with_unfolding_all decide⟩,
   update_below_floor_rejected ⟨defaultPolicyConfig, defaultPolicyConfig⟩ "cbrn" "enterprise"
     (5/100) (10/100) rfl (by with_unfolding_all decide)⟩

/-- C10: `update_policy` never creates a new category/tier cell: when the
category has no entry in `risk_thresholds`, or the tier has no entry under
that category, the call returns false and mutates nothing. -/
theorem update_missing_cell_rejected (st : EngineState) (cat tier : String) (v : ℚ)
    (h : alookup st.policy.risk_thresholds cat = none
       ∨ ∃ tm, alookup st.policy.risk_thresholds cat = some tm ∧ alookup tm tier = none) :
    update_policy st cat tier v = (false, st) := by
  unfold update_policy
  cases hb : belowFloor cat v with
  | true => rfl
  | false =>
    simp only [Bool.false_eq_true, if_false]
    rcases h with h | ⟨tm, h1, h2⟩
    · rw [h]
    · simp only [h1, h2]

/-- C10 witness: the default table has no `autonomous_replication`
category, so an update of that cell is rejected without mutation. -/
theorem update_missing_cell_rejected_witness :
    alookup (defaultPolicyConfig.risk_thresholds) "autonomous_replication" = none
  ∧ update_policy ⟨defaultPolicyConfig, defaultPolicyConfig⟩ "autonomous_replication" "general"
      (30/100) = (false, ⟨defaultPolicyConfig, defaultPolicyConfig⟩) :=
  ⟨rfl,
   update_missing_cell_rejected ⟨defaultPolicyConfig, defaultPolicyConfig⟩
     "autonomous_replication" "general" (30/100) (Or.inl rfl)⟩

/-! ### C2: ASL invariant -/

/-- C2: under the default configuration, whenever a fixed ASL check fires
(cbrn ≥ 0.20, exploitation ≥ 0.50 or jailbreak ≥ 0.50), the returned
`PolicyAction` has `asl_triggered = true`, `asl_level = 3`, and its action
is allow for the research sandbox and escalate for the other tiers
(never block). -/
theorem asl_trigger_invariant (e : ClaudeEvent) (s : ℚ)
    (h : (alookup e.risk_scores "cbrn" = some s ∧ (20/100 : ℚ) ≤ s)
       ∨ (alookup e.risk_scores "exploitation" = some s ∧ (50/100 : ℚ) ≤ s)
       ∨ (alookup e.risk_scores "jailbreak" = some s ∧ (50/100 : ℚ) ≤ s)) :
    (apply_policies defaultPolicyConfig e).asl_triggered = true
  ∧ (apply_policies defaultPolicyConfig e).asl_level = some 3
  ∧ (apply_policies defaultPolicyConfig e).action =
      (if e.tier = Tier.research_sandbox then ActionEnum.allow else ActionEnum.escalate) := by
  have hfix : fixedAslFired e.risk_scores = true := by
    unfold fixedAslFired aslChecks
    rcases h with ⟨h1, h2⟩ | ⟨h1, h2⟩ | ⟨h1, h2⟩ <;>
      simp [List.any_cons, h1, decide_eq_true h2]
  have hp : parseAslLevel "asl_3" = 3 := by with_unfolding_all decide
  have hasl : aslEval defaultPolicyConfig e.risk_scores = (true, some 3) := by
    unfold aslEval
    rw [hfix]
    simp only [eq_self_iff_true, if_true, defaultPolicyConfig, List.foldl_cons, List.foldl_nil]
    split
    · rw [hp]
    · rfl
  refine ⟨?_, ?_, ?_⟩
  · simp [apply_policies, hasl]
  · simp [apply_policies, hasl]
  · obtain ⟨eid, uid, oid, sf, t, pr, co, rs, tg, mv⟩ := e
    cases t <;> simp +decide [apply_policies, hasl, determineAction, Tier.value]

/-- The record of the C2 witness: enterprise tier, exploitation score 0.60. -/
def c2Event : ClaudeEvent :=
  ⟨102, "u", "o", "api", .enterprise, "p", "c", [("exploitation", 60/100)], [], "m"⟩

/-- C2 witness: the ASL invariant evaluated at a concrete enterprise record
whose exploitation score 0.60 crosses the fixed 0.50 ceiling. -/
theorem asl_trigger_invariant_witness :
    (alookup c2Event.risk_scores "exploitation" = some (60/100) ∧ (50/100 : ℚ) ≤ 60/100)
  ∧ ((apply_policies defaultPolicyConfig c2Event).asl_triggered = true
    ∧ (apply_policies defaultPolicyConfig c2Event).asl_level = some 3
    ∧ (apply_policies defaultPolicyConfig c2Event).action =
        (if c2Event.tier = Tier.research_sandbox then ActionEnum.allow else ActionEnum.escalate)) :=
  ⟨⟨rfl, by with_unfolding_all decide⟩,
   asl_trigger_invariant c2Event (60/100)
     (Or.inr (Or.inl ⟨rfl, by with_unfolding_all decide⟩))⟩

/-! ### C3: reason strings -/

/-- The record of the C3 counterexample: general tier, four triggered
categories in score-map order, the highest-scoring one (exploitation,
0.45, below every ASL ceiling) listed last. -/
def c3Event : ClaudeEvent :=
  ⟨103, "u", "o", "api", .general, "p", "c",
   [("cbrn", 16/100), ("self_harm", 35/100), ("jailbreak", 35/100), ("exploitation", 45/100)],
   [], "m"⟩

/-- C3 counterexample: for `c3Event` no ASL check fires, exploitation is
the single highest-scoring triggered risk (`critical_category`), yet the
generated reason never mentions it — the code lists the *first* three
triggered entries in score-map order, not the three *highest-scoring*
ones, so the claim's format is violated at this input. -/
theorem reason_omits_top_risk :
    (apply_policies defaultPolicyConfig c3Event).asl_triggered = false
  ∧ (criticalOf (triggeredRisks defaultPolicyConfig.risk_thresholds "general"
      c3Event.risk_scores)).2 = some "exploitation"
  ∧ ((triggeredRisks defaultPolicyConfig.risk_thresholds "general" c3Event.risk_scores).map
      TriggeredRisk.category) = ["cbrn", "self_harm", "jailbreak", "exploitation"]
  ∧ substrOfList "exploitation".toList
      (apply_policies defaultPolicyConfig c3Event).reason.toList = false := by
  with_unfolding_all decide

/-- C3 amended: the reason string of `apply_policies` is: when ASL is not
triggered, the fixed no-violations string if nothing crossed its tier
threshold, and otherwise the *first* three triggered-risk entries in
score-map order, each formatted as
`"<category> risk (<score>) exceeded <tier> threshold (<threshold>)"` and
joined by semicolons; when ASL is triggered, the cited category is
`critical_category` — the highest-scoring *tier-triggered* category, which
need not be the capability ceiling that fired — with a fixed
ceiling-and-threshold string for cbrn/exploitation/jailbreak and a generic
string (without a numeric threshold) otherwise. -/
theorem reason_spec_amended (cfg : PolicyConfig) (e : ClaudeEvent) :
    ((apply_policies cfg e).asl_triggered = false →
      (apply_policies cfg e).reason =
        (if triggeredRisks cfg.risk_thresholds e.tier.value e.risk_scores = []
         then "No policy violations detected"
         else String.intercalate "; "
           (((triggeredRisks cfg.risk_thresholds e.tier.value e.risk_scores).take 3).map
             (fmtRisk e.tier.value))))
  ∧ ((apply_policies cfg e).asl_triggered = true → ∀ c,
      (criticalOf (triggeredRisks cfg.risk_thresholds e.tier.value e.risk_scores)).2 = some c →
      (apply_policies cfg e).reason =
        (if c = "cbrn" then "ASL-3 biological/chemical threshold exceeded (cbrn ≥ 0.20)"
         else if c = "exploitation" then
           "ASL-3 cyber capability threshold exceeded (exploitation ≥ 0.50)"
         else if c = "jailbreak" then
           "ASL-3 deception capability threshold exceeded (jailbreak ≥ 0.50)"
         else "ASL-3 safety threshold triggered for " ++ c ++ " risk")) := by
  constructor
  · intro hfalse
    have ha : (aslEval cfg e.risk_scores).1 = false := by
      simpa [apply_policies] using hfalse
    simp [apply_policies, generateReason, ha]
  · intro htrue c hc
    have ha : (aslEval cfg e.risk_scores).1 = true := by
      simpa [apply_policies] using htrue
    simp [apply_policies, generateReason, ha, hc, fmtOptCat]

/-- C3 witness for the amended statement: the non-ASL branch evaluated at
`c3Event`. -/
theorem reason_spec_amended_witness :
    (apply_policies defaultPolicyConfig c3Event).asl_triggered = false
  ∧ (apply_policies defaultPolicyConfig c3Event).reason =
      (if triggeredRisks defaultPolicyConfig.risk_thresholds c3Event.tier.value
            c3Event.risk_scores = []
       then "No policy violations detected"
       else String.intercalate "; "
         (((triggeredRisks defaultPolicyConfig.risk_thresholds c3Event.tier.value
             c3Event.risk_scores).take 3).map (fmtRisk c3Event.tier.value))) :=
  ⟨by with_unfolding_all decide,
   (reason_spec_amended defaultPolicyConfig c3Event).1 (by with_unfolding_all decide)⟩

/-! ### C7: review-queue semantics -/

/-- C7: a review decision for an identifier with no pending queue entry
fails with not-found and changes nothing; a decision for a pending
identifier succeeds, shrinks the queue by exactly one entry, and a second
submission for the same identifier then fails with not-found.  The
`Nodup` hypothesis is the key-uniqueness invariant of the Python dict the
queue is stored in. -/
theorem review_queue_semantics (st : AppState) (i : Nat) (d : String)
    (hnd : (st.review_queue.map Prod.fst).Nodup) :
    (alookup st.review_queue i = none →
      review_event st i d false none none = (Except.error ReviewError.notFound, st))
  ∧ (∀ item, alookup st.review_queue i = some item →
      (review_event st i d false none none).1 =
        Except.ok ⟨i, d, false, st.review_queue.length - 1⟩
    ∧ (review_event st i d false none none).2.review_queue.length + 1 =
        st.review_queue.length
    ∧ (review_event ((review_event st i d false none none).2) i d false none none).1 =
        Except.error ReviewError.notFound) := by
  constructor
  · intro h
    unfold review_event
    rw [h]
  · intro item h
    have hlen := length_aerase_of_alookup st.review_queue i item h
    have hnone := alookup_aerase_self st.review_queue i hnd
    have e1 : review_event st i d false none none =
        (Except.ok ⟨i, d, false, (aerase st.review_queue i).length⟩,
         { st with
            events := st.events.map fun se =>
              if se.event.event_id = i then { se with action := d } else se,
            review_queue := aerase st.review_queue i }) := by
      unfold review_event
      rw [h]
      rfl
    rw [e1]
    refine ⟨?_, ?_, ?_⟩
    · have : (aerase st.review_queue i).length = st.review_queue.length - 1 := by omega
      rw [this]
    · simpa using hlen
    · unfold review_event
      simp only []
      rw [hnone]

/-- One concrete pending queue entry for the C7 witness. -/
def c7Entry : QueueEntry :=
  ⟨⟨7, "u", "o", "api", .general, "p", "c", [], [], "m"⟩,
   ⟨7, .escalate, some 3, "RSP-1.0", "r", true⟩⟩

/-- A concrete application state whose review queue holds exactly `c7Entry`. -/
def c7State : AppState :=
  ⟨[], [], [(7, c7Entry)], ⟨defaultPolicyConfig, defaultPolicyConfig⟩, []⟩

/-- C7 witness: the queue semantics evaluated on a one-entry queue. -/
theorem review_queue_semantics_witness :
    ((c7State.review_queue.map Prod.fst).Nodup ∧ alookup c7State.review_queue 7 = some c7Entry)
  ∧ ((review_event c7State 7 "allow" false none none).1 =
       Except.ok ⟨7, "allow", false, c7State.review_queue.length - 1⟩
    ∧ (review_event c7State 7 "allow" false none none).2.review_queue.length + 1 =
        c7State.review_queue.length
    ∧ (review_event ((review_event c7State 7 "allow" false none none).2)
        7 "allow" false none none).1 = Except.error ReviewError.notFound) :=
  ⟨⟨by decide, rfl⟩,
   (review_queue_semantics c7State 7 "allow" (by decide)).2 c7Entry rfl⟩

/-- Decidable equality for handler results. -/
instance exceptDecEq {ε α : Type} [DecidableEq ε] [DecidableEq α] :
    DecidableEq (Except ε α) := fun x y =>
  match x, y with
  | .ok a, .ok b =>
    if h : a = b then .isTrue (by rw [h]) else .isFalse (by simp [h])
  | .error a, .error b =>
    if h : a = b then .isTrue (by rw [h]) else .isFalse (by simp [h])
  | .ok _, .error _ => .isFalse (by simp)
  | .error _, .ok _ => .isFalse (by simp)

/-! ### C8: review with a threshold-update request -/

/-- One concrete pending queue entry for C8 (general-tier event). -/
def c8Entry : QueueEntry :=
  ⟨⟨8, "u", "o", "api", .general, "p", "c", [("cbrn", 18/100)], [], "m"⟩,
   ⟨8, .escalate, none, "RSP-1.0", "r", false⟩⟩

/-- A concrete application state whose review queue holds exactly `c8Entry`. -/
def c8State : AppState :=
  ⟨[], [], [(8, c8Entry)], ⟨defaultPolicyConfig, defaultPolicyConfig⟩, []⟩

/-- C8 counterexample: a review with a threshold update of 0.05 (rejected:
below the cbrn floor 0.10, configuration unchanged) and one with 0.22
(accepted: configuration changed) return *identical* response payloads —
`policy_updated` echoes the request flag, so the payload does not report
the update's actual success or failure. -/
theorem rejected_update_same_payload :
    (review_event c8State 8 "allow" true (some (5/100)) (some "cbrn")).1 =
      (review_event c8State 8 "allow" true (some (22/100)) (some "cbrn")).1
  ∧ (review_event c8State 8 "allow" true (some (5/100)) (some "cbrn")).1 =
      Except.ok ⟨8, "allow", true, 0⟩
  ∧ (review_event c8State 8 "allow" true (some (5/100)) (some "cbrn")).2.engine =
      c8State.engine
  ∧ (review_event c8State 8 "allow" true (some (22/100)) (some "cbrn")).2.engine ≠
      c8State.engine := by
  with_unfolding_all decide

/-- C8 amended: when a review submission carries a threshold-update
request, the queue entry is removed whether or not the update succeeds,
and the response's `policy_updated` field echoes the request flag
`update_policy` (it does not report the update's success or failure). -/
theorem review_update_removal_and_echo (st : AppState) (i : Nat) (d : String)
    (nt : ℚ) (cat : String) (item : QueueEntry)
    (h : alookup st.review_queue i = some item) :
    (review_event st i d true (some nt) (some cat)).2.review_queue =
      aerase st.review_queue i
  ∧ (review_event st i d true (some nt) (some cat)).1 =
      Except.ok ⟨i, d, true, (aerase st.review_queue i).length⟩ := by
  unfold review_event
  rw [h]
  exact ⟨rfl, rfl⟩

/-- C8 witness for the amended statement: removal and flag echo on a
one-entry queue with a rejected update request. -/
theorem review_update_removal_and_echo_witness :
    alookup c8State.review_queue 8 = some c8Entry
  ∧ ((review_event c8State 8 "allow" true (some (5/100)) (some "cbrn")).2.review_queue =
      aerase c8State.review_queue 8
    ∧ (review_event c8State 8 "allow" true (some (5/100)) (some "cbrn")).1 =
      Except.ok ⟨8, "allow", true, (aerase c8State.review_queue 8).length⟩) :=
  ⟨rfl, review_update_removal_and_echo c8State 8 "allow" (5/100) "cbrn" c8Entry rfl⟩

/-! ### C9: duplicate ingestion -/

/-- A trivial detector family (scores everything 0, no matches): the
duplicate-skip logic is independent of detector output. -/
def det0 : Taggers := fun _ _ _ => ⟨0, []⟩

/-- A stored row with event id 9. -/
def c9Stored : StoredEvent :=
  ⟨⟨9, "u", "o", "api", .general, "p", "c", [], [], "m"⟩, "allow", false⟩

/-- A state whose events table already holds id 9. -/
def c9State : AppState :=
  ⟨[c9Stored], [], [], ⟨defaultPolicyConfig, defaultPolicyConfig⟩, []⟩

/-- A fresh incoming record carrying the already-stored id 9. -/
def c9Event : ClaudeEvent :=
  ⟨9, "u2", "o2", "api", .general, "p2", "c2", [], [], "m"⟩

/-- C9 counterexample: ingesting a batch whose only record duplicates a
stored identifier performs no second storage write — but contrary to the
claim the record does *not* count toward the response metrics: the
processed count and every action/ASL count are 0, and the state is
entirely unchanged. -/
theorem duplicate_not_counted :
    (ingest_events det0 c9State [c9Event]).2.processed = 0
  ∧ (ingest_events det0 c9State [c9Event]).2.allow = 0
  ∧ (ingest_events det0 c9State [c9Event]).2.asl_triggers = 0
  ∧ (ingest_events det0 c9State [c9Event]).1 = c9State := by
  with_unfolding_all decide

/-- C9 amended: a record whose identifier already exists in the store is
skipped entirely by ingestion: no second storage write, no queue insert,
and no contribution to the processed count or to any per-action or
ASL-trigger count of the response. -/
theorem ingest_duplicate_skipped (det : Taggers) (st : AppState) (e : ClaudeEvent)
    (h : st.events.any (fun se => se.event.event_id = e.event_id) = true) :
    ingest_events det st [e] = (st, ⟨0, 0, 0, 0, 0, 0⟩) := by
  unfold ingest_events ingestStep
  simp only [List.foldl_cons, List.foldl_nil, h, eq_self_iff_true, if_true]
  rfl

/-- C9 witness for the amended statement: the duplicate-skip behaviour
evaluated at the concrete duplicate batch. -/
theorem ingest_duplicate_skipped_witness :
    c9State.events.any (fun se => se.event.event_id = c9Event.event_id) = true
  ∧ ingest_events det0 c9State [c9Event] = (c9State, ⟨0, 0, 0, 0, 0, 0⟩) :=
  ⟨by decide, ingest_duplicate_skipped det0 c9State c9Event (by decide)⟩

end Cgcp

